import Mathlib

/-!
Shallow embedding of the HireMeServer real-time chat and presence subsystem.

The definitions below translate, line by line, the chat router
(`GET /chats`, `GET /chats/:chatId/messages`, `POST /chats/send`,
`POST /chats/:chatId/read`) and the socket presence module
(`initSocket`: connection, disconnect, room membership).  The relational
`chats`/`messages` tables and the Firebase realtime trees
(`messages/<chatId>`, `unread/<uid>/<chatId>`, `notifications/<uid>`) are
modelled as explicit state; each awaited store operation is a separate
step so that interleavings of concurrent requests can be expressed.
Server timestamps (`created_at DEFAULT now()`) are modelled by a clock
field of the database state that the environment may advance between
requests; the handlers never read a client-supplied timestamp.
-/

namespace HireMe

/-- A row of the `chats` table: serial id and the two participant uids,
stored in the order `(sender, receiver)` of the creating request. -/
structure Chat where
  id : Nat
  user1_uid : String
  user2_uid : String
deriving DecidableEq

/-- A row of the `messages` table.  `created_at` is assigned by the
database at insert time (the INSERT supplies only chat_id, sender_uid and
content). -/
structure Message where
  id : Nat
  chat_id : Nat
  sender_uid : String
  content : String
  created_at : Nat
deriving DecidableEq

/-- A record pushed onto `notifications/<receiverUid>` on send. -/
structure Notif where
  receiverUid : String
  chatId : Nat
  senderUid : String
  content : String
deriving DecidableEq

/-- The Firebase unread tree `unread/<uid>/<chatId> -> counter`,
as an association list keyed by (uid, chatId). -/
abbrev UnreadStore := List ((String × Nat) × Nat)

/-- Reading `unread/<uid>/<chatId>` with `once("value")`: an absent node
reads as 0 (the code's `snapshot.val() || 0`). -/
def unreadGet (u : UnreadStore) (uid : String) (chatId : Nat) : Nat :=
  match u.find? (fun p => p.1 == (uid, chatId)) with
  | some p => p.2
  | none => 0

/-- Writing `unread/<uid>/<chatId>` with `set(v)`: overwrite the node. -/
def unreadSet (u : UnreadStore) (uid : String) (chatId : Nat) (v : Nat) : UnreadStore :=
  ((uid, chatId), v) :: u.filter (fun p => p.1 != (uid, chatId))

/-- Combined durable state: the relational store (chats, messages with
their serial id counters and the database clock used for `created_at`)
and the Firebase trees (message copies, unread counters, notifications). -/
structure DB where
  chats : List Chat
  nextChatId : Nat
  messages : List Message
  nextMsgId : Nat
  clock : Nat
  fbMessages : List (Nat × Message)
  unread : UnreadStore
  notifications : List Notif
deriving DecidableEq

/-- The fresh state: empty tables, serial counters at 1, clock at 0. -/
def emptyDB : DB := ⟨[], 1, [], 1, 0, [], [], []⟩

/-- `SELECT * FROM chats WHERE (user1_uid=$1 AND user2_uid=$2) OR
(user1_uid=$2 AND user2_uid=$1)` for `$1 = a`, `$2 = b`. -/
def findChatRows (chats : List Chat) (a b : String) : List Chat :=
  chats.filter (fun c =>
    (c.user1_uid == a && c.user2_uid == b) || (c.user1_uid == b && c.user2_uid == a))

/-- `INSERT INTO chats (user1_uid, user2_uid) VALUES ($1,$2) RETURNING *`:
a plain insert, no uniqueness constraint and no conflict handling. -/
def insertChat (db : DB) (a b : String) : DB × Nat :=
  ({ db with chats := db.chats ++ [⟨db.nextChatId, a, b⟩],
             nextChatId := db.nextChatId + 1 },
   db.nextChatId)

/-- The SELECT phase of the handler's find-or-create: the id of the first
matching row, if any (`chatRes.rows[0].id`). -/
def chatSelect (db : DB) (a b : String) : Option Nat :=
  match findChatRows db.chats a b with
  | [] => none
  | c :: _ => some c.id

/-- The decision phase of find-or-create, acting on the result of an
earlier SELECT: insert when that SELECT saw no row, else reuse its id. -/
def chatCreateIfMissing (db : DB) (a b : String) (found : Option Nat) : DB × Nat :=
  match found with
  | some cid => (db, cid)
  | none => insertChat db a b

/-- The handler's sequential find-or-create: SELECT, then insert if no
row was found. -/
def findOrCreateChat (db : DB) (a b : String) : DB × Nat :=
  chatCreateIfMissing db a b (chatSelect db a b)

/-- `INSERT INTO messages (chat_id, sender_uid, content) VALUES ($1,$2,$3)
RETURNING *`: serial id, `created_at` taken from the database clock. -/
def insertMessage (db : DB) (chatId : Nat) (senderUid content : String) : DB × Message :=
  let m : Message := ⟨db.nextMsgId, chatId, senderUid, content, db.clock⟩
  ({ db with messages := db.messages ++ [m], nextMsgId := db.nextMsgId + 1 }, m)

/-- `db.ref(messages/<chatId>).push(firebaseMessage)`. -/
def fbPushMessage (db : DB) (chatId : Nat) (m : Message) : DB :=
  { db with fbMessages := db.fbMessages ++ [(chatId, m)] }

/-- `db.ref(notifications/<receiverUid>).push(...)`. -/
def pushNotif (db : DB) (n : Notif) : DB :=
  { db with notifications := db.notifications ++ [n] }

/-- Which awaited store operations of one `POST /chats/send` request
succeed; a failing operation throws, leaving its own effect unapplied,
and control reaches the catch block. -/
structure SendFaults where
  insertMsgOk : Bool
  fbPushOk : Bool
  unreadReadOk : Bool
  unreadSetOk : Bool
  notifPushOk : Bool
deriving DecidableEq

/-- The fault-free execution. -/
def allOk : SendFaults := ⟨true, true, true, true, true⟩

/-- The HTTP response of the send route. -/
inductive HttpResult where
  | ok (m : Message)
  | badRequest (msg : String)
  | serverError (msg : String)
deriving DecidableEq

/-- `POST /chats/send`, step by step: reject falsy content with 400;
find or create the chat; insert the message row; push the Firebase copy;
read the receiver's unread counter, write back its value plus one; push
the notification; respond with the message row.  Any store failure jumps
to the catch block, answering 500 with all earlier effects kept. -/
def sendHandlerRun (f : SendFaults) (db : DB) (senderUid receiverUid content : String) :
    HttpResult × DB :=
  if content == "" then (.badRequest "Empty message", db)
  else
    let fc := findOrCreateChat db senderUid receiverUid
    let db1 := fc.1
    let chatId := fc.2
    if !f.insertMsgOk then (.serverError "Server error", db1)
    else
      let im := insertMessage db1 chatId senderUid content
      let db2 := im.1
      let message := im.2
      if !f.fbPushOk then (.serverError "Server error", db2)
      else
        let db3 := fbPushMessage db2 chatId message
        if !f.unreadReadOk then (.serverError "Server error", db3)
        else
          let currentUnread := unreadGet db3.unread receiverUid chatId
          if !f.unreadSetOk then (.serverError "Server error", db3)
          else
            let db4 := { db3 with
              unread := unreadSet db3.unread receiverUid chatId (currentUnread + 1) }
            if !f.notifPushOk then (.serverError "Server error", db4)
            else
              (.ok message, pushNotif db4 ⟨receiverUid, chatId, senderUid, content⟩)

/-- State after the find-or-create phase of a send. -/
def sendDb1 (db : DB) (s r : String) : DB := (findOrCreateChat db s r).1

/-- The conversation id a send resolves to. -/
def sendChatId (db : DB) (s r : String) : Nat := (findOrCreateChat db s r).2

/-- The message row a send inserts. -/
def sendMsg (db : DB) (s r content : String) : Message :=
  (insertMessage (sendDb1 db s r) (sendChatId db s r) s content).2

/-- State after the message INSERT of a send. -/
def sendDb2 (db : DB) (s r content : String) : DB :=
  (insertMessage (sendDb1 db s r) (sendChatId db s r) s content).1

/-- State after the Firebase message push of a send. -/
def sendDb3 (db : DB) (s r content : String) : DB :=
  fbPushMessage (sendDb2 db s r content) (sendChatId db s r) (sendMsg db s r content)

/-- State after the unread-counter write of a send. -/
def sendDb4 (db : DB) (s r content : String) : DB :=
  { sendDb3 db s r content with
    unread := unreadSet (sendDb3 db s r content).unread r (sendChatId db s r)
      (unreadGet (sendDb3 db s r content).unread r (sendChatId db s r) + 1) }

/-- State after the notification push of a send. -/
def sendDb5 (db : DB) (s r content : String) : DB :=
  pushNotif (sendDb4 db s r content) ⟨r, sendChatId db s r, s, content⟩

/-- `SELECT id, chat_id, sender_uid, content, created_at FROM messages
WHERE chat_id = $1` — the row set, in arrival (insertion) order. -/
def listMessagesRows (msgs : List Message) (chatId : Nat) : List Message :=
  msgs.filter (fun m => m.chat_id == chatId)

/-- The response of `GET /chats/:chatId/messages`. -/
inductive ListResult where
  | ok (rows : List Message)
  | forbidden
deriving DecidableEq

/-- `GET /chats/:chatId/messages`: returns the chat's rows to the
authenticated requester.  The handler never consults the requester's
participation in the chat. -/
def getMessagesHandler (db : DB) (chatId : Nat) (requesterUid : String) : ListResult :=
  let _ := requesterUid
  ListResult.ok (listMessagesRows db.messages chatId)

/-- Whether `uid` is one of the chat's two participants. -/
def isParticipant (chats : List Chat) (chatId : Nat) (uid : String) : Bool :=
  chats.any (fun c => c.id == chatId && (c.user1_uid == uid || c.user2_uid == uid))

/-- `POST /chats/:chatId/read`: `db.ref(unread/<uid>/<chatId>).set(0)`,
then `res.json(success := true)`. -/
def readHandler (db : DB) (chatId : Nat) (uid : String) : Bool × DB :=
  (true, { db with unread := unreadSet db.unread uid chatId 0 })

/-- `k` sequential fault-free sends from `s` to `r`. -/
def sendK (s r content : String) : Nat → DB → DB
  | 0, db => db
  | Nat.succ k, db => (sendHandlerRun allOk (sendK s r content k db) s r content).2

/-- One interleaving of two concurrent `POST /chats/send` find-or-create
phases for the same pair: both handlers run their SELECT before either
runs its INSERT, then the two INSERT/reuse phases commit in turn.
Returns the final state and the conversation id each handler observed. -/
def racyFindOrCreate (db : DB) (a b : String) : DB × Nat × Nat :=
  let r1 := chatSelect db a b
  let r2 := chatSelect db a b
  let step1 := chatCreateIfMissing db a b r1
  let step2 := chatCreateIfMissing step1.1 a b r2
  (step2.1, step1.2, step2.2)

/-- One interleaving of two concurrent unread-counter updates of
`POST /chats/send` for the same (recipient, chat): both handlers run
`once("value")` before either runs `set(v + 1)`. -/
def racyTwoIncrements (u : UnreadStore) (uid : String) (chatId : Nat) : UnreadStore :=
  let v1 := unreadGet u uid chatId
  let v2 := unreadGet u uid chatId
  let u1 := unreadSet u uid chatId (v1 + 1)
  unreadSet u1 uid chatId (v2 + 1)

/-- A live socket.io connection: its socket id, the authenticated uid
bound at connection time, and the rooms it has joined. -/
structure Sock where
  sid : Nat
  userId : String
  rooms : List String
deriving DecidableEq

/-- The in-memory socket registry. -/
structure Registry where
  sockets : List Sock
deriving DecidableEq

/-- The presence events the socket module broadcasts. -/
inductive SockEvent where
  | user_online (uid : String)
  | user_offline (uid : String)
deriving DecidableEq

/-- The `connection` handler: the new socket joins the uid's personal
room (`socket.join(userId)`) and `user_online` is broadcast. -/
def onConnection (r : Registry) (sid : Nat) (uid : String) : Registry × List SockEvent :=
  (⟨r.sockets ++ [⟨sid, uid, [uid]⟩]⟩, [.user_online uid])

/-- The `disconnect` handler: the socket leaves the registry and
`user_offline` for its uid is broadcast — unconditionally. -/
def onDisconnect (r : Registry) (sid : Nat) : Registry × List SockEvent :=
  match r.sockets.find? (fun s => s.sid == sid) with
  | none => (r, [])
  | some s => (⟨r.sockets.filter (fun t => t.sid != sid)⟩, [.user_offline s.userId])

/-- The socket ids that an emit to the uid's personal room reaches. -/
def personalRoomMembers (r : Registry) (uid : String) : List Nat :=
  (r.sockets.filter (fun s => s.rooms.contains uid)).map (fun s => s.sid)

/-- The uid's live sessions. -/
def liveSessionsOf (r : Registry) (uid : String) : List Nat :=
  (r.sockets.filter (fun s => s.userId == uid)).map (fun s => s.sid)

/-- The whole server process: durable state plus the socket registry.
The send route closes over the stores only; the registry lives in the
same process but the route never reads it. -/
structure ServerState where
  db : DB
  reg : Registry

/-- `POST /chats/send` as seen from the whole process: the route updates
the durable state and leaves the registry untouched. -/
def sendEndpoint (f : SendFaults) (st : ServerState) (senderUid receiverUid content : String) :
    HttpResult × ServerState :=
  let run := sendHandlerRun f st.db senderUid receiverUid content
  (run.1, ⟨run.2, st.reg⟩)

/-- Order on messages by their server-assigned `created_at` key. -/
def createdAtLE (m n : Message) : Prop := m.created_at ≤ n.created_at

/-- Strict order on messages by their server-assigned `created_at` key. -/
def createdAtLT (m n : Message) : Prop := m.created_at < n.created_at

instance : DecidableRel createdAtLE := fun m n => Nat.decLe m.created_at n.created_at

instance : DecidableRel createdAtLT := fun m n => Nat.decLt m.created_at n.created_at

/-- The possible result sequences of `SELECT ... WHERE chat_id = $1
ORDER BY created_at ASC`: SQL fixes the multiset of rows and that the
output is non-decreasing in the ORDER BY key, and fixes nothing else —
rows with equal `created_at` may come back in any order. -/
def validQueryResult (msgs : List Message) (chatId : Nat) (out : List Message) : Prop :=
  out.Perm (listMessagesRows msgs chatId) ∧ List.Sorted createdAtLE out

/-- Advancing the database clock between requests (time passing). -/
def bumpClock (db : DB) (t : Nat) : DB := { db with clock := t }

/-- State after two fault-free sends in the same clock tick: both
message rows carry the same `created_at`. -/
def sameTickDb : DB :=
  (sendHandlerRun allOk (sendHandlerRun allOk emptyDB "A" "B" "hi").2 "B" "A" "there").2

/-- State after two fault-free sends with the clock advanced in between:
the two `created_at` keys are distinct. -/
def distinctTickDb : DB :=
  (sendHandlerRun allOk (bumpClock (sendHandlerRun allOk emptyDB "A" "B" "hi").2 5)
    "B" "A" "there").2

/-- State after one fault-free send from "A" to "B" on a fresh store. -/
def oneSendDb : DB := (sendHandlerRun allOk emptyDB "A" "B" "hi").2

/-- State holding the chat row for ("A","B") and nothing else. -/
def chatOnlyDb : DB := (findOrCreateChat emptyDB "A" "B").1

/-- Registry holding two live sessions of the same identity "U". -/
def twoSessionReg : Registry := (onConnection (onConnection ⟨[]⟩ 1 "U").1 2 "U").1

theorem unreadGet_unreadSet_self (u : UnreadStore) (uid : String) (cid : Nat) (v : Nat) :
    unreadGet (unreadSet u uid cid v) uid cid = v := by
  simp [unreadGet, unreadSet, List.find?]

theorem find?_filter_ne (u : UnreadStore) (k k' : String × Nat) (h : k' ≠ k) :
    (u.filter (fun p => p.1 != k)).find? (fun p => p.1 == k')
      = u.find? (fun p => p.1 == k') := by
  induction u with
  | nil => rfl
  | cons a t ih =>
    have h3 : (k == k') = false := beq_eq_false_iff_ne.mpr (fun he => h he.symm)
    by_cases hk : a.1 = k
    · simp [List.filter_cons, List.find?_cons, hk, h3, ih]
    · by_cases hk2 : a.1 = k'
      · simp [List.filter_cons, List.find?_cons, hk, hk2, h]
      · simp [List.filter_cons, List.find?_cons, hk, hk2, ih]

theorem unreadGet_unreadSet_other (u : UnreadStore) (uid : String) (cid : Nat) (v : Nat)
    (uid' : String) (cid' : Nat) (h : (uid', cid') ≠ (uid, cid)) :
    unreadGet (unreadSet u uid cid v) uid' cid' = unreadGet u uid' cid' := by
  have hne : ((uid, cid) == (uid', cid')) = false := by
    simp
    exact fun he hc => h (by simp [he, hc])
  simp only [unreadGet, unreadSet, List.find?, hne]
  rw [find?_filter_ne u (uid, cid) (uid', cid') h]

theorem unreadSet_unreadSet (u : UnreadStore) (uid : String) (cid : Nat) (v w : Nat) :
    unreadSet (unreadSet u uid cid v) uid cid w = unreadSet u uid cid w := by
  simp [unreadSet, List.filter_cons, List.filter_filter]

theorem perm_sorted_eq_of_pairwise_lt :
    ∀ (l out : List Message), l.Pairwise createdAtLT → out.Perm l →
      List.Sorted createdAtLE out → out = l := by
  intro l
  induction l with
  | nil =>
    intro out _ hp _
    exact List.perm_nil.mp hp
  | cons a t ih =>
    intro out hl hp hs
    obtain ⟨ha, ht⟩ := List.pairwise_cons.mp hl
    cases out with
    | nil => simp [List.nil_perm] at hp
    | cons b out2 =>
      obtain ⟨hb, hs2⟩ := List.sorted_cons.mp hs
      have hbmem : b ∈ a :: t := hp.subset (List.mem_cons_self b out2)
      by_cases hba : b = a
      · subst hba
        have hperm : out2.Perm t := hp.cons_inv
        rw [ih out2 ht hperm hs2]
      · have hbt : b ∈ t := by
          cases List.mem_cons.mp hbmem with
          | inl hh => exact absurd hh hba
          | inr hh => exact hh
        have hab : createdAtLT a b := ha b hbt
        have hamem : a ∈ b :: out2 := hp.symm.subset (List.mem_cons_self a t)
        have haout : a ∈ out2 := by
          cases List.mem_cons.mp hamem with
          | inl hh => exact absurd hh.symm hba
          | inr hh => exact hh
        have hba2 : createdAtLE b a := hb a haout
        exact absurd (Nat.lt_of_lt_of_le hab hba2) (Nat.lt_irrefl _)

theorem chatSelect_eq_of_chats (db db2 : DB) (a b : String) (h : db2.chats = db.chats) :
    chatSelect db2 a b = chatSelect db a b := by
  unfold chatSelect findChatRows
  rw [h]

theorem sendHandlerRun_existing (db : DB) (s r content : String) (cid : Nat)
    (hc : (content == "") = false) (hsel : chatSelect db s r = some cid) :
    (sendHandlerRun allOk db s r content).2.chats = db.chats ∧
    (sendHandlerRun allOk db s r content).2.unread
      = unreadSet db.unread r cid (unreadGet db.unread r cid + 1) := by
  unfold sendHandlerRun findOrCreateChat chatCreateIfMissing
  rw [hsel]
  simp [hc, allOk, insertMessage, fbPushMessage, pushNotif]

theorem sendK_unread_existing (s r content : String) (cid : Nat)
    (hc : (content == "") = false) :
    ∀ (k : Nat) (db : DB), chatSelect db s r = some cid →
      chatSelect (sendK s r content k db) s r = some cid ∧
      unreadGet (sendK s r content k db).unread r cid = unreadGet db.unread r cid + k := by
  intro k
  induction k with
  | zero =>
    intro db hsel
    exact ⟨hsel, rfl⟩
  | succ k ih =>
    intro db hsel
    obtain ⟨hsel2, hget⟩ := ih db hsel
    have hstep := sendHandlerRun_existing (sendK s r content k db) s r content cid hc hsel2
    constructor
    · rw [show sendK s r content (Nat.succ k) db
          = (sendHandlerRun allOk (sendK s r content k db) s r content).2 from rfl,
        chatSelect_eq_of_chats (sendK s r content k db) _ s r hstep.1]
      exact hsel2
    · rw [show sendK s r content (Nat.succ k) db
          = (sendHandlerRun allOk (sendK s r content k db) s r content).2 from rfl,
        hstep.2, unreadGet_unreadSet_self, hget]
      omega

theorem findOrCreateChat_fields (db : DB) (a b : String) :
    (findOrCreateChat db a b).1.messages = db.messages ∧
    (findOrCreateChat db a b).1.nextMsgId = db.nextMsgId ∧
    (findOrCreateChat db a b).1.clock = db.clock ∧
    (findOrCreateChat db a b).1.fbMessages = db.fbMessages ∧
    (findOrCreateChat db a b).1.unread = db.unread ∧
    (findOrCreateChat db a b).1.notifications = db.notifications := by
  unfold findOrCreateChat chatCreateIfMissing
  cases chatSelect db a b with
  | none => simp [insertChat]
  | some cid => simp

theorem sendHandlerRun_empty (f : SendFaults) (db : DB) (s r content : String)
    (hc : (content == "") = true) :
    sendHandlerRun f db s r content = (.badRequest "Empty message", db) := by
  simp [sendHandlerRun, hc]

theorem sendHandlerRun_insert_fail (fb ur us np : Bool) (db : DB) (s r content : String)
    (hc : (content == "") = false) :
    sendHandlerRun ⟨false, fb, ur, us, np⟩ db s r content
      = (.serverError "Server error", sendDb1 db s r) := by
  simp [sendHandlerRun, sendDb1, hc]

theorem sendHandlerRun_fbpush_fail (ur us np : Bool) (db : DB) (s r content : String)
    (hc : (content == "") = false) :
    sendHandlerRun ⟨true, false, ur, us, np⟩ db s r content
      = (.serverError "Server error", sendDb2 db s r content) := by
  simp [sendHandlerRun, sendDb2, sendMsg, sendChatId, sendDb1, hc]

theorem sendHandlerRun_unreadread_fail (us np : Bool) (db : DB) (s r content : String)
    (hc : (content == "") = false) :
    sendHandlerRun ⟨true, true, false, us, np⟩ db s r content
      = (.serverError "Server error", sendDb3 db s r content) := by
  simp [sendHandlerRun, sendDb3, sendDb2, sendMsg, sendChatId, sendDb1, hc]

theorem sendHandlerRun_unreadset_fail (np : Bool) (db : DB) (s r content : String)
    (hc : (content == "") = false) :
    sendHandlerRun ⟨true, true, true, false, np⟩ db s r content
      = (.serverError "Server error", sendDb3 db s r content) := by
  simp [sendHandlerRun, sendDb3, sendDb2, sendMsg, sendChatId, sendDb1, hc]

theorem sendHandlerRun_notif_fail (db : DB) (s r content : String)
    (hc : (content == "") = false) :
    sendHandlerRun ⟨true, true, true, true, false⟩ db s r content
      = (.serverError "Server error", sendDb4 db s r content) := by
  simp [sendHandlerRun, sendDb4, sendDb3, sendDb2, sendMsg, sendChatId, sendDb1, hc]

theorem sendHandlerRun_ok (db : DB) (s r content : String)
    (hc : (content == "") = false) :
    sendHandlerRun allOk db s r content
      = (.ok (sendMsg db s r content), sendDb5 db s r content) := by
  simp [sendHandlerRun, allOk, sendDb5, sendDb4, sendDb3, sendDb2, sendMsg,
    sendChatId, sendDb1, hc]

theorem sendDb1_fields (db : DB) (s r : String) :
    (sendDb1 db s r).messages = db.messages ∧
    (sendDb1 db s r).unread = db.unread ∧
    (sendDb1 db s r).fbMessages = db.fbMessages ∧
    (sendDb1 db s r).notifications = db.notifications := by
  obtain ⟨hm, _, _, hfb, hu, hno⟩ := findOrCreateChat_fields db s r
  exact ⟨hm, hu, hfb, hno⟩

theorem sendDb2_fields (db : DB) (s r content : String) :
    (sendDb2 db s r content).messages = db.messages ++ [sendMsg db s r content] ∧
    (sendDb2 db s r content).unread = db.unread ∧
    (sendDb2 db s r content).notifications = db.notifications := by
  obtain ⟨hm, _, _, _, hu, hno⟩ := findOrCreateChat_fields db s r
  refine ⟨?_, ?_, ?_⟩ <;> simp [sendDb2, sendMsg, insertMessage, sendDb1, hm, hu, hno]

theorem sendDb3_fields (db : DB) (s r content : String) :
    (sendDb3 db s r content).messages = db.messages ++ [sendMsg db s r content] ∧
    (sendDb3 db s r content).unread = db.unread ∧
    (sendDb3 db s r content).notifications = db.notifications := by
  obtain ⟨hm, hu, hno⟩ := sendDb2_fields db s r content
  refine ⟨?_, ?_, ?_⟩ <;> simp [sendDb3, fbPushMessage, hm, hu, hno]

theorem sendDb4_fields (db : DB) (s r content : String) :
    (sendDb4 db s r content).messages = db.messages ++ [sendMsg db s r content] ∧
    (sendDb4 db s r content).unread
      = unreadSet db.unread r (sendChatId db s r)
          (unreadGet db.unread r (sendChatId db s r) + 1) ∧
    (sendDb4 db s r content).notifications = db.notifications := by
  obtain ⟨hm, hu, hno⟩ := sendDb3_fields db s r content
  refine ⟨?_, ?_, ?_⟩ <;> simp [sendDb4, hm, hu, hno]

theorem sendDb5_fields (db : DB) (s r content : String) :
    (sendDb5 db s r content).messages = db.messages ++ [sendMsg db s r content] ∧
    (sendDb5 db s r content).unread
      = unreadSet db.unread r (sendChatId db s r)
          (unreadGet db.unread r (sendChatId db s r) + 1) := by
  obtain ⟨hm, hu, _⟩ := sendDb4_fields db s r content
  exact ⟨by simp [sendDb5, pushNotif, hm], by simp [sendDb5, pushNotif, hu]⟩

/-- C1: the claim fails on the code.  The find-or-create of
`POST /chats/send` is a SELECT followed by a plain INSERT with no
uniqueness constraint and no conflict handling, so the interleaving in
which both handlers SELECT before either INSERTs leaves TWO chat rows
for the unordered pair ("A","B") — ids 1 and 2 — and the two callers
observe different conversation ids. -/
theorem c1_findOrCreate_race_duplicates :
    (findChatRows (racyFindOrCreate emptyDB "A" "B").1.chats "A" "B").length = 2 ∧
    (racyFindOrCreate emptyDB "A" "B").2.1 = 1 ∧
    (racyFindOrCreate emptyDB "A" "B").2.2 = 2 ∧
    (racyFindOrCreate emptyDB "A" "B").2.1 ≠ (racyFindOrCreate emptyDB "A" "B").2.2 := by
  decide

/-- C2: the claim fails on the code.  The unread update of
`POST /chats/send` is `once("value")` followed by `set(v + 1)` — a
read-then-write, not an atomic increment — so when two concurrent sends
to the same (recipient, chat) both read before either writes, the
counter ends at 1 instead of 2: one increment is lost. -/
theorem c2_unread_increment_lost_update :
    unreadGet (racyTwoIncrements [] "B" 1) "B" 1 = 1 ∧
    unreadGet (racyTwoIncrements [] "B" 1) "B" 1 ≠ 2 := by
  decide

/-- C3: the claim fails on the code.  The socket `disconnect` handler
broadcasts `user_offline` unconditionally: with two live sessions of
identity "U", disconnecting session 1 still broadcasts
`user_offline "U"` even though session 2 is live — and session 2 does
remain a member of "U"'s personal room. -/
theorem c3_offline_broadcast_despite_live_session :
    liveSessionsOf (onDisconnect twoSessionReg 1).1 "U" = [2] ∧
    (onDisconnect twoSessionReg 1).2 = [SockEvent.user_offline "U"] ∧
    personalRoomMembers (onDisconnect twoSessionReg 1).1 "U" = [2] := by
  decide

/-- C4 counterexample: the claim fails on the code.  After two sends in
the same clock tick both message rows carry `created_at = 0`; the query
`ORDER BY created_at ASC` admits the result that lists message 2 before
message 1, which is a valid result of the code's query but is not the
arrival order — so ties are not broken by arrival order and the returned
sequence is not a stable total order. -/
theorem c4_tie_order_not_stable :
    validQueryResult sameTickDb.messages 1
      [⟨2, 1, "B", "there", 0⟩, ⟨1, 1, "A", "hi", 0⟩] ∧
    ([⟨2, 1, "B", "there", 0⟩, ⟨1, 1, "A", "hi", 0⟩] : List Message)
      ≠ listMessagesRows sameTickDb.messages 1 := by
  refine ⟨⟨by decide, by decide⟩, by decide⟩

/-- C4 amended: for every conversation, every result sequence the query
can return is in non-decreasing `created_at` order, with the key
assigned by the server at append time (the append stores the database
clock; the handler reads no client timestamp), and whenever the keys in
the conversation are pairwise distinct the result is uniquely the
arrival order; ties between equal keys may come back in any order. -/
theorem c4_sorted_and_unique_when_keys_distinct :
    (∀ (msgs : List Message) (chatId : Nat) (out : List Message),
        (listMessagesRows msgs chatId).Pairwise createdAtLT →
        validQueryResult msgs chatId out →
        out = listMessagesRows msgs chatId) ∧
    (∀ (db : DB) (s r content : String), (content == "") = false →
        ∃ chatId, (sendHandlerRun allOk db s r content).2.messages
          = db.messages ++ [⟨db.nextMsgId, chatId, s, content, db.clock⟩]) := by
  constructor
  · intro msgs chatId out hlt hvalid
    exact perm_sorted_eq_of_pairwise_lt (listMessagesRows msgs chatId) out hlt
      hvalid.1 hvalid.2
  · intro db s r content hc
    unfold sendHandlerRun findOrCreateChat chatCreateIfMissing
    cases hsel : chatSelect db s r with
    | some cid =>
      refine ⟨cid, ?_⟩
      simp [hc, allOk, insertMessage, fbPushMessage, pushNotif]
    | none =>
      refine ⟨db.nextChatId, ?_⟩
      simp [hc, allOk, insertChat, insertMessage, fbPushMessage, pushNotif]

/-- C4 witness: with the clock advanced between the two sends the keys
are distinct (0 and 5) and the unique valid result is the arrival order;
and a fresh send appends exactly one row stamped with the clock. -/
theorem c4_sorted_and_unique_witness :
    ([⟨1, 1, "A", "hi", 0⟩, ⟨2, 1, "B", "there", 5⟩] : List Message)
        = listMessagesRows distinctTickDb.messages 1 ∧
    (∃ chatId, (sendHandlerRun allOk emptyDB "A" "B" "hi").2.messages
        = emptyDB.messages ++ [⟨emptyDB.nextMsgId, chatId, "A", "hi", emptyDB.clock⟩]) :=
  ⟨c4_sorted_and_unique_when_keys_distinct.1 distinctTickDb.messages 1
      [⟨1, 1, "A", "hi", 0⟩, ⟨2, 1, "B", "there", 5⟩] (by decide) ⟨by decide, by decide⟩,
   c4_sorted_and_unique_when_keys_distinct.2 emptyDB "A" "B" "hi" (by decide)⟩

/-- C9: the claim fails on the code.  `GET /chats/:chatId/messages`
never checks that the requester participates in the chat: requester "C"
is not a participant of chat 1 (between "A" and "B"), yet the handler
returns the chat's messages instead of a Forbidden error. -/
theorem c9_read_not_restricted_to_participants :
    isParticipant oneSendDb.chats 1 "C" = false ∧
    getMessagesHandler oneSendDb 1 "C" = ListResult.ok [⟨1, 1, "A", "hi", 0⟩] ∧
    getMessagesHandler oneSendDb 1 "C" ≠ ListResult.forbidden := by
  refine ⟨by decide, by decide, by decide⟩

/-- C5: the unread increment of `POST /chats/send` is tied to the
append.  (i) When the message INSERT fails, nothing is persisted: no
message row, no unread change, no Firebase message copy, no
notification dispatch, and the response is not a success.  (ii) The
unread store changes only in executions where the append succeeded and
exactly one message row was added.  (iii) No counter ever grows by more
than the number of message rows appended in the request (never an
over-count). -/
theorem c5_increment_only_with_successful_append :
    ∀ (f : SendFaults) (db : DB) (s r content : String),
      (f.insertMsgOk = false →
        (sendHandlerRun f db s r content).2.messages = db.messages ∧
        (sendHandlerRun f db s r content).2.unread = db.unread ∧
        (sendHandlerRun f db s r content).2.fbMessages = db.fbMessages ∧
        (sendHandlerRun f db s r content).2.notifications = db.notifications ∧
        ∀ m, (sendHandlerRun f db s r content).1 ≠ HttpResult.ok m) ∧
      ((sendHandlerRun f db s r content).2.unread ≠ db.unread →
        f.insertMsgOk = true ∧
        (sendHandlerRun f db s r content).2.messages.length = db.messages.length + 1) ∧
      (∀ uid cid,
        unreadGet (sendHandlerRun f db s r content).2.unread uid cid ≤
          unreadGet db.unread uid cid +
            ((sendHandlerRun f db s r content).2.messages.length
              - db.messages.length)) := by
  intro f db s r content
  obtain ⟨i, fb, ur, us, np⟩ := f
  cases hc : content == "" with
  | true =>
    rw [sendHandlerRun_empty ⟨i, fb, ur, us, np⟩ db s r content hc]
    exact ⟨fun _ => ⟨rfl, rfl, rfl, rfl, fun m h => by simp at h⟩,
      fun h => absurd rfl h,
      fun uid cid => by simp⟩
  | false =>
    cases i with
    | false =>
      rw [sendHandlerRun_insert_fail fb ur us np db s r content hc]
      obtain ⟨h1m, h1u, h1f, h1n⟩ := sendDb1_fields db s r
      refine ⟨fun _ => ⟨h1m, h1u, h1f, h1n, fun m h => by simp at h⟩,
        fun h => absurd h1u h, fun uid cid => ?_⟩
      rw [h1u, h1m]
      omega
    | true =>
      have step2 (db2 : DB)
          (hmm : db2.messages = db.messages ++ [sendMsg db s r content])
          (huu : db2.unread = db.unread) :
          (true = false →
            db2.messages = db.messages ∧ db2.unread = db.unread ∧
            db2.fbMessages = db.fbMessages ∧ db2.notifications = db.notifications ∧
            ∀ m, HttpResult.serverError "Server error" ≠ HttpResult.ok m) ∧
          (db2.unread ≠ db.unread → true = true ∧
            db2.messages.length = db.messages.length + 1) ∧
          (∀ uid cid, unreadGet db2.unread uid cid ≤
            unreadGet db.unread uid cid +
              (db2.messages.length - db.messages.length)) := by
        refine ⟨fun h => by simp at h,
          fun _ => ⟨rfl, by rw [hmm]; simp⟩, fun uid cid => ?_⟩
        rw [huu, hmm]
        omega
      have step4 (db2 : DB)
          (hmm : db2.messages = db.messages ++ [sendMsg db s r content])
          (huu : db2.unread = unreadSet db.unread r (sendChatId db s r)
            (unreadGet db.unread r (sendChatId db s r) + 1)) :
          (db2.unread ≠ db.unread → true = true ∧
            db2.messages.length = db.messages.length + 1) ∧
          (∀ uid cid, unreadGet db2.unread uid cid ≤
            unreadGet db.unread uid cid +
              (db2.messages.length - db.messages.length)) := by
        refine ⟨fun _ => ⟨rfl, by rw [hmm]; simp⟩, fun uid cid => ?_⟩
        rw [huu, hmm]
        simp only [List.length_append, List.length_cons, List.length_nil]
        by_cases hkey : (uid, cid) = (r, sendChatId db s r)
        · have h1 : uid = r := congrArg Prod.fst hkey
          have h2 : cid = sendChatId db s r := congrArg Prod.snd hkey
          subst h1
          subst h2
          rw [unreadGet_unreadSet_self]
          omega
        · rw [unreadGet_unreadSet_other _ _ _ _ _ _ hkey]
          omega
      cases fb with
      | false =>
        rw [sendHandlerRun_fbpush_fail ur us np db s r content hc]
        obtain ⟨hmm, huu, _⟩ := sendDb2_fields db s r content
        exact ⟨fun h => by simp at h, (step2 _ hmm huu).2.1, (step2 _ hmm huu).2.2⟩
      | true =>
        cases ur with
        | false =>
          rw [sendHandlerRun_unreadread_fail us np db s r content hc]
          obtain ⟨hmm, huu, _⟩ := sendDb3_fields db s r content
          exact ⟨fun h => by simp at h, (step2 _ hmm huu).2.1, (step2 _ hmm huu).2.2⟩
        | true =>
          cases us with
          | false =>
            rw [sendHandlerRun_unreadset_fail np db s r content hc]
            obtain ⟨hmm, huu, _⟩ := sendDb3_fields db s r content
            exact ⟨fun h => by simp at h, (step2 _ hmm huu).2.1, (step2 _ hmm huu).2.2⟩
          | true =>
            cases np with
            | false =>
              rw [sendHandlerRun_notif_fail db s r content hc]
              obtain ⟨hmm, huu, _⟩ := sendDb4_fields db s r content
              have h4 := step4 (sendDb4 db s r content) hmm huu
              exact ⟨fun h => by simp at h, h4.1, h4.2⟩
            | true =>
              rw [show (⟨true, true, true, true, true⟩ : SendFaults) = allOk from rfl,
                sendHandlerRun_ok db s r content hc]
              obtain ⟨hmm, huu⟩ := sendDb5_fields db s r content
              have h4 := step4 (sendDb5 db s r content) hmm huu
              exact ⟨fun h => by simp [allOk] at h, h4.1, h4.2⟩

/-- C5 witness: a send whose message INSERT fails leaves the unread
store of a concrete state untouched, and a fault-free send on the same
state respects the no-over-count bound. -/
theorem c5_witness :
    (sendHandlerRun ⟨false, true, true, true, true⟩ oneSendDb "A" "B" "yo").2.unread
        = oneSendDb.unread ∧
    unreadGet (sendHandlerRun allOk oneSendDb "A" "B" "yo").2.unread "B" 1 ≤
      unreadGet oneSendDb.unread "B" 1 +
        ((sendHandlerRun allOk oneSendDb "A" "B" "yo").2.messages.length
          - oneSendDb.messages.length) :=
  ⟨((c5_increment_only_with_successful_append ⟨false, true, true, true, true⟩
      oneSendDb "A" "B" "yo").1 rfl).2.1,
   (c5_increment_only_with_successful_append allOk oneSendDb "A" "B" "yo").2.2 "B" 1⟩

/-- C6: for every recipient and existing conversation, starting from a
zero counter, k fault-free sends with no intervening reads leave the
unread counter at k; the read endpoint resets it to exactly 0 and
reports success; resetting the already-zero counter is a no-op on the
store and still reports success; and k2 further sends after the reset
count from 0 up to k2. -/
theorem c6_unread_counter_semantics :
    ∀ (db : DB) (s r content : String) (cid k k2 : Nat),
      (content == "") = false →
      chatSelect db s r = some cid →
      unreadGet db.unread r cid = 0 →
      unreadGet (sendK s r content k db).unread r cid = k ∧
      ((readHandler (sendK s r content k db) cid r).1 = true ∧
        unreadGet (readHandler (sendK s r content k db) cid r).2.unread r cid = 0) ∧
      ((readHandler (readHandler (sendK s r content k db) cid r).2 cid r).2.unread
          = (readHandler (sendK s r content k db) cid r).2.unread ∧
        (readHandler (readHandler (sendK s r content k db) cid r).2 cid r).1 = true) ∧
      unreadGet
          (sendK s r content k2 (readHandler (sendK s r content k db) cid r).2).unread
          r cid = k2 := by
  intro db s r content cid k k2 hc hsel hzero
  obtain ⟨hselk, hgetk⟩ := sendK_unread_existing s r content cid hc k db hsel
  have hreset : (readHandler (sendK s r content k db) cid r).2.unread
      = unreadSet (sendK s r content k db).unread r cid 0 := rfl
  refine ⟨by rw [hgetk, hzero]; omega, ⟨rfl, ?_⟩, ⟨?_, rfl⟩, ?_⟩
  · rw [hreset, unreadGet_unreadSet_self]
  · show unreadSet (unreadSet (sendK s r content k db).unread r cid 0) r cid 0
        = unreadSet (sendK s r content k db).unread r cid 0
    exact unreadSet_unreadSet _ r cid 0 0
  · have hsel2 : chatSelect (readHandler (sendK s r content k db) cid r).2 s r
        = some cid := by
      rw [chatSelect_eq_of_chats (sendK s r content k db)
        (readHandler (sendK s r content k db) cid r).2 s r rfl]
      exact hselk
    obtain ⟨hsel3, hget2⟩ := sendK_unread_existing s r content cid hc k2
      (readHandler (sendK s r content k db) cid r).2 hsel2
    rw [hget2, hreset, unreadGet_unreadSet_self]
    omega

/-- C6 witness: on the state holding just the chat row, three sends put
the counter at 3. -/
theorem c6_witness :
    unreadGet (sendK "A" "B" "hi" 3 chatOnlyDb).unread "B" 1 = 3 :=
  (c6_unread_counter_semantics chatOnlyDb "A" "B" "hi" 1 3 2 (by decide) (by decide)
    (by decide)).1

/-- C7 counterexample: the claim fails on the code.  The validation
`if (!content)` rejects only falsy content: the whitespace-only text " "
passes it, the message is persisted, and the request is answered with
the message row instead of a 400 error. -/
theorem c7_whitespace_only_passes :
    (" ").data.all Char.isWhitespace = true ∧
    " " ≠ "" ∧
    (sendHandlerRun allOk emptyDB "A" "B" " ").1 = HttpResult.ok ⟨1, 1, "A", " ", 0⟩ ∧
    (sendHandlerRun allOk emptyDB "A" "B" " ").2.messages = [⟨1, 1, "A", " ", 0⟩] := by
  refine ⟨by decide, by decide, by decide, by decide⟩

/-- C7 amended: the send validation answers 400 ("Empty message") and
persists nothing exactly when the text is the empty string; any other
text — whitespace-only included — passes the validation. -/
theorem c7_rejects_exactly_empty :
    ∀ (f : SendFaults) (db : DB) (s r content : String),
      ((sendHandlerRun f db s r content).1 = HttpResult.badRequest "Empty message" ∧
        (sendHandlerRun f db s r content).2 = db)
      ↔ content = "" := by
  intro f db s r content
  constructor
  · intro hres
    by_contra hne
    have hc : (content == "") = false := beq_eq_false_iff_ne.mpr hne
    obtain ⟨i, fb, ur, us, np⟩ := f
    cases i with
    | false =>
      rw [sendHandlerRun_insert_fail fb ur us np db s r content hc] at hres
      simp at hres
    | true =>
      cases fb with
      | false =>
        rw [sendHandlerRun_fbpush_fail ur us np db s r content hc] at hres
        simp at hres
      | true =>
        cases ur with
        | false =>
          rw [sendHandlerRun_unreadread_fail us np db s r content hc] at hres
          simp at hres
        | true =>
          cases us with
          | false =>
            rw [sendHandlerRun_unreadset_fail np db s r content hc] at hres
            simp at hres
          | true =>
            cases np with
            | false =>
              rw [sendHandlerRun_notif_fail db s r content hc] at hres
              simp at hres
            | true =>
              rw [show (⟨true, true, true, true, true⟩ : SendFaults) = allOk from rfl,
                sendHandlerRun_ok db s r content hc] at hres
              simp at hres
  · intro hres
    have hc : (content == "") = true := by rw [hres]; rfl
    rw [sendHandlerRun_empty f db s r content hc]
    exact ⟨rfl, rfl⟩

/-- C7 amended witness: the empty string is rejected with 400 and the
state stays unchanged. -/
theorem c7_rejects_exactly_empty_witness :
    (sendHandlerRun allOk emptyDB "A" "B" "").1 = HttpResult.badRequest "Empty message" ∧
    (sendHandlerRun allOk emptyDB "A" "B" "").2 = emptyDB :=
  (c7_rejects_exactly_empty allOk emptyDB "A" "B" "").mpr rfl

/-- C8: the response of `POST /chats/send` is computed from the durable
stores alone.  Two process states that agree on the stores but differ
arbitrarily in the socket registry — in particular in the receiver's
live sessions — get the identical response and identical resulting
stores; the request leaves the registry untouched; and with zero live
sessions a fault-free send of nonempty text still answers with the
message row, raising no dispatch error. -/
theorem c8_response_independent_of_liveness :
    ∀ (f : SendFaults) (st1 st2 : ServerState) (s r content : String),
      st1.db = st2.db →
      (sendEndpoint f st1 s r content).1 = (sendEndpoint f st2 s r content).1 ∧
      (sendEndpoint f st1 s r content).2.db = (sendEndpoint f st2 s r content).2.db ∧
      (sendEndpoint f st1 s r content).2.reg = st1.reg ∧
      ((content == "") = false →
        (sendEndpoint allOk ⟨st1.db, Registry.mk []⟩ s r content).1
          = HttpResult.ok (sendMsg st1.db s r content)) := by
  intro f st1 st2 s r content hdb
  refine ⟨?_, ?_, rfl, ?_⟩
  · show (sendHandlerRun f st1.db s r content).1 = (sendHandlerRun f st2.db s r content).1
    rw [hdb]
  · show (sendHandlerRun f st1.db s r content).2 = (sendHandlerRun f st2.db s r content).2
    rw [hdb]
  · intro hc
    show (sendHandlerRun allOk st1.db s r content).1
        = HttpResult.ok (sendMsg st1.db s r content)
    rw [sendHandlerRun_ok st1.db s r content hc]

/-- C8 witness: with the receiver "B" live on one socket versus not live
at all, the same send gets the identical response. -/
theorem c8_witness :
    (sendEndpoint allOk ⟨emptyDB, ⟨[⟨1, "B", ["B"]⟩]⟩⟩ "A" "B" "hi").1
      = (sendEndpoint allOk ⟨emptyDB, ⟨[]⟩⟩ "A" "B" "hi").1 :=
  (c8_response_independent_of_liveness allOk ⟨emptyDB, ⟨[⟨1, "B", ["B"]⟩]⟩⟩
    ⟨emptyDB, ⟨[]⟩⟩ "A" "B" "hi" rfl).1

end HireMe
